import Mathlib

/-!
Shallow embedding of the LAMMPS granular tangential contact submodels
(`src/GRANULAR/contact_tangential_models.cpp`) together with the mixing
helpers of the granular submodel base class (`src/GRANULAR/gsm.cpp`).

C `double` values are modelled as real numbers.  The MathExtra 3-vector
helpers used by the source (`dot3`, `len3`, `scale3`, `add3`, `sub3`,
`zero3`) are transcribed directly.  `error->all` aborts during setup are
modelled with `Except`: a fatal error is an `Except.error` result.
Since the source mutates `contact->fs` and the history slice in place,
each `calculate_forces` is embedded as a pure function returning the
final values of the force vector and of the history slots.
-/

namespace GranularContact

noncomputable section

/-- A C `double[3]` vector as manipulated by the MathExtra helpers. -/
structure Vec3 where
  x : ℝ
  y : ℝ
  z : ℝ

/-- MathExtra `dot3`. -/
def dot3 (a b : Vec3) : ℝ := a.x * b.x + a.y * b.y + a.z * b.z

/-- MathExtra `len3`: Euclidean length. -/
def len3 (a : Vec3) : ℝ := Real.sqrt (dot3 a a)

/-- MathExtra `scale3` (three-argument form): componentwise scaling. -/
def scale3 (s : ℝ) (a : Vec3) : Vec3 := ⟨s * a.x, s * a.y, s * a.z⟩

/-- MathExtra `add3`. -/
def add3 (a b : Vec3) : Vec3 := ⟨a.x + b.x, a.y + b.y, a.z + b.z⟩

/-- MathExtra `sub3`. -/
def sub3 (a b : Vec3) : Vec3 := ⟨a.x - b.x, a.y - b.y, a.z - b.z⟩

/-- MathExtra `zero3`. -/
def zero3 : Vec3 := ⟨0, 0, 0⟩

lemma dot3_self_nonneg (a : Vec3) : 0 ≤ dot3 a a := by
  have hx := mul_self_nonneg a.x
  have hy := mul_self_nonneg a.y
  have hz := mul_self_nonneg a.z
  unfold dot3
  linarith

lemma len3_nonneg (a : Vec3) : 0 ≤ len3 a := Real.sqrt_nonneg _

lemma len3_zero3 : len3 zero3 = 0 := by
  simp [len3, zero3, dot3]

lemma len3_scale3 (s : ℝ) (a : Vec3) : len3 (scale3 s a) = |s| * len3 a := by
  unfold len3 scale3 dot3
  have h : s * a.x * (s * a.x) + s * a.y * (s * a.y) + s * a.z * (s * a.z)
      = s ^ 2 * (a.x * a.x + a.y * a.y + a.z * a.z) := by ring
  rw [h, Real.sqrt_mul (sq_nonneg s), Real.sqrt_sq_eq_abs]

/-- Working parameters produced by `coeffs_to_local`
(`k`, `xt`, `mu` and the derived `damp`). -/
structure LocalParams where
  k : ℝ
  xt : ℝ
  mu : ℝ
  damp : ℝ

/-- The raw coefficient array of a tangential submodel.  All tangential
variants have `num_coeffs` at most 3; `TangentialLinearNoHistory` only
reads `c0` and `c1`. -/
structure Coeffs3 where
  c0 : ℝ
  c1 : ℝ
  c2 : ℝ

/-- The data the tangential models read from `contact->normal_model`
during setup. -/
structure NormalModel where
  material_properties : Bool
  Emod : ℝ
  poiss : ℝ

/-- The per-contact kinematic inputs read from `contact` by the
tangential `calculate_forces` implementations: unit normal `nx`,
tangential relative velocity `vtr` and its magnitude `vrel`, contact
`area`, timestep `dt`, the `history_update` flag, and the normal model's
critical force `Fncrit`. -/
structure ContactIn where
  nx : Vec3
  vtr : Vec3
  vrel : ℝ
  area : ℝ
  dt : ℝ
  history_update : Bool
  Fncrit : ℝ

/-- The fatal setup errors raised via `error->all` in
`contact_tangential_models.cpp`, one constructor per call site. -/
inductive GranErr where
  | illegalLinearNoHistoryTangential
  | illegalLinearTangential
  | mindlinNeedsMaterial
  | illegalMindlinTangential
deriving DecidableEq

/-- `GSM::mix_geom`: geometric mean. -/
def mix_geom (val1 val2 : ℝ) : ℝ := Real.sqrt (val1 * val2)

/-- `GSM::mix_stiffnessG`: shear-modulus mixing,
`1 / (2(2-p1)(1+p1)/E1 + 2(2-p2)(1+p2)/E2)`. -/
def mix_stiffnessG (E1 E2 pois1 pois2 : ℝ) : ℝ :=
  1 / (2 * (2 - pois1) * (1 + pois1) / E1 + 2 * (2 - pois2) * (1 + pois2) / E2)

/-- `TangentialLinearNoHistory::coeffs_to_local`: `k = 0`,
`xt = coeffs[0]`, `mu = coeffs[1]`, `damp = xt * damping_model->damp`,
then the non-negativity check. -/
def tangentialLinearNoHistoryCoeffsToLocal (coeffs : Coeffs3) (dampingDamp : ℝ) :
    Except GranErr LocalParams :=
  let k : ℝ := 0
  let xt := coeffs.c0
  let mu := coeffs.c1
  let damp := xt * dampingDamp
  if k < 0 ∨ xt < 0 ∨ mu < 0 then Except.error GranErr.illegalLinearNoHistoryTangential
  else Except.ok ⟨k, xt, mu, damp⟩

/-- `TangentialLinearHistory::coeffs_to_local`. -/
def tangentialLinearHistoryCoeffsToLocal (coeffs : Coeffs3) (dampingDamp : ℝ) :
    Except GranErr LocalParams :=
  let k := coeffs.c0
  let xt := coeffs.c1
  let mu := coeffs.c2
  let damp := xt * dampingDamp
  if k < 0 ∨ xt < 0 ∨ mu < 0 then Except.error GranErr.illegalLinearTangential
  else Except.ok ⟨k, xt, mu, damp⟩

/-- `TangentialMindlin::coeffs_to_local` (shared by all four Mindlin
variants): the `k == -1` sentinel is replaced by
`8 * mix_stiffnessG(Emod, Emod, poiss, poiss)` when the normal model has
material properties, and is a fatal error otherwise; then the
non-negativity check, then `damp = xt * damping_model->damp`. -/
def tangentialMindlinCoeffsToLocal (coeffs : Coeffs3) (nm : NormalModel)
    (dampingDamp : ℝ) : Except GranErr LocalParams :=
  let xt := coeffs.c1
  let mu := coeffs.c2
  if coeffs.c0 = -1 ∧ nm.material_properties = false then
    Except.error GranErr.mindlinNeedsMaterial
  else
    let k := if coeffs.c0 = -1 then 8 * mix_stiffnessG nm.Emod nm.Emod nm.poiss nm.poiss
             else coeffs.c0
    if k < 0 ∨ xt < 0 ∨ mu < 0 then Except.error GranErr.illegalMindlinTangential
    else Except.ok ⟨k, xt, mu, xt * dampingDamp⟩

/-- `TangentialMindlin::mix_coeffs`, coefficient computation: the source
sentinel test is `imodel->coeffs[0] == -1 || imodel->coeffs[0] == -1`
(it reads the `i` side twice); every other coefficient is mixed with
`mix_geom`. -/
def tangentialMindlinMixedCoeffs (icoeffs jcoeffs : Coeffs3) : Coeffs3 :=
  ⟨if icoeffs.c0 = -1 ∨ icoeffs.c0 = -1 then -1 else mix_geom icoeffs.c0 jcoeffs.c0,
   mix_geom icoeffs.c1 jcoeffs.c1,
   mix_geom icoeffs.c2 jcoeffs.c2⟩

/-- `TangentialLinearNoHistory::calculate_forces`:
`Ft = min(Fscrit, damp*vrel)/vrel` (0 when `vrel` is zero) and
`fs = -Ft * vtr`. -/
def tangentialLinearNoHistoryForces (p : LocalParams) (c : ContactIn) : Vec3 :=
  let Fscrit := p.mu * c.Fncrit
  let fsmag := p.damp * c.vrel
  let Ft := if c.vrel ≠ 0 then min Fscrit fsmag / c.vrel else 0
  scale3 (-Ft) c.vtr

/-- The `history_update` block of
`TangentialLinearHistory::calculate_forces` (lines 121-142): frame
update (the source assigns `history = rsht * nx` via the three-argument
`scale3`, then rescales to the pre-update magnitude), followed by the
history integration `history -= k * dt * vtr`. -/
def linearHistoryUpdate (p : LocalParams) (EPSILON : ℝ) (c : ContactIn)
    (history : Vec3) : Vec3 :=
  let Fscrit := c.Fncrit * p.mu
  let rsht := dot3 history c.nx
  let frame_update := |rsht| * p.k > EPSILON * Fscrit
  let history1 :=
    if frame_update then
      let shrmag := len3 history
      let projected := scale3 rsht c.nx
      let prjmag := len3 projected
      let t := if prjmag > 0 then shrmag / prjmag else 0
      scale3 t projected
    else history
  sub3 history1 (scale3 (p.k * c.dt) c.vtr)

/-- `TangentialLinearHistory::calculate_forces`: returns the final
values of `(contact->fs, history)`.  The force is `-damp * vtr`; the
trailing block clips it to the Coulomb limit `Fscrit` and back-derives
the history from the clipped force. -/
def tangentialLinearHistoryForces (p : LocalParams) (EPSILON : ℝ) (c : ContactIn)
    (history0 : Vec3) : Vec3 × Vec3 :=
  let Fscrit := c.Fncrit * p.mu
  let history1 := if c.history_update then linearHistoryUpdate p EPSILON c history0
                  else history0
  let fs := scale3 (-p.damp) c.vtr
  let magfs := len3 fs
  let shrmag := len3 history1
  let fsFinal :=
    if magfs > Fscrit then
      (if shrmag ≠ 0 then scale3 (Fscrit / magfs) fs else zero3)
    else fs
  let histFinal :=
    if magfs > Fscrit then
      (if shrmag ≠ 0 then add3 (scale3 (Fscrit / magfs) fs) (scale3 p.damp c.vtr)
       else history1)
    else history1
  (fsFinal, histFinal)

/-- The `mindlin_rescale` unloading block of
`TangentialMindlin::calculate_forces` (lines 220-226): when the contact
area has shrunk below the stored reference area `history[3]`, the three
displacement slots are scaled by `area / history[3]`. -/
def mindlinRescaleHistory (c : ContactIn) (history : Vec3) (h3 : ℝ) : Vec3 :=
  if c.area < h3 then scale3 (c.area / h3) history else history

/-- The `history_update` block of `TangentialMindlin::calculate_forces`
(lines 230-260, excluding the `history[3] = area` write): frame update
(tolerance test differs between the force and displacement
formulations; the source assigns `history = rsht * nx` via the
three-argument `scale3`, then rescales to the pre-update magnitude),
followed by the history integration, `-k_scaled * dt * vtr` for the
force formulation and `dt * vtr` for the displacement formulation. -/
def mindlinHistoryUpdate (p : LocalParams) (mindlin_force : Bool) (EPSILON : ℝ)
    (c : ContactIn) (history : Vec3) : Vec3 :=
  let Fscrit := c.Fncrit * p.mu
  let k_scaled := p.k * c.area
  let rsht := dot3 history c.nx
  let frame_update :=
    if mindlin_force then |rsht| > EPSILON * Fscrit
    else |rsht| * k_scaled > EPSILON * Fscrit
  let history1 :=
    if frame_update then
      let shrmag := len3 history
      let projected := scale3 rsht c.nx
      let prjmag := len3 projected
      let t := if prjmag > 0 then shrmag / prjmag else 0
      scale3 t projected
    else history
  let upd := if mindlin_force then scale3 (-k_scaled * c.dt) c.vtr
             else scale3 c.dt c.vtr
  add3 history1 upd

/-- `TangentialMindlin::calculate_forces`: returns the final values of
`(contact->fs, history[0..2], history[3])`.  The force is
`-damp * vtr`, plus `k_scaled * history` for the displacement
formulation (`!mindlin_force`); the trailing block clips it to the
Coulomb limit and back-derives the history from the clipped force,
dividing by `-k_scaled` for the displacement formulation. -/
def tangentialMindlinForces (p : LocalParams) (mindlin_force mindlin_rescale : Bool)
    (EPSILON : ℝ) (c : ContactIn) (history0 : Vec3) (h3 : ℝ) : Vec3 × Vec3 × ℝ :=
  let Fscrit := c.Fncrit * p.mu
  let k_scaled := p.k * c.area
  let historyA := if mindlin_rescale then mindlinRescaleHistory c history0 h3
                  else history0
  let historyB := if c.history_update then
      mindlinHistoryUpdate p mindlin_force EPSILON c historyA
    else historyA
  let h3B := if c.history_update ∧ mindlin_rescale then c.area else h3
  let fs0 := scale3 (-p.damp) c.vtr
  let fs1 := if mindlin_force then fs0 else add3 fs0 (scale3 k_scaled historyB)
  let magfs := len3 fs1
  let shrmag := len3 historyB
  let histClip :=
    let hC := add3 (scale3 (Fscrit / magfs) fs1) (scale3 p.damp c.vtr)
    if mindlin_force then hC else scale3 (-1 / k_scaled) hC
  let fsFinal :=
    if magfs > Fscrit then
      (if shrmag ≠ 0 then scale3 (Fscrit / magfs) fs1 else zero3)
    else fs1
  let histFinal :=
    if magfs > Fscrit then (if shrmag ≠ 0 then histClip else historyB)
    else historyB
  (fsFinal, histFinal, h3B)

/-- The six tangential model variants of
`contact_tangential_models.cpp`. -/
inductive TangentialVariant where
  | LinearNoHistory
  | LinearHistory
  | Mindlin
  | MindlinForce
  | MindlinRescale
  | MindlinRescaleForce
deriving DecidableEq

/-- The `size_history` value set by each variant's constructor
(`TangentialLinearNoHistory` sets 3 at line 34; the Mindlin rescale
variants set 4). -/
def sizeHistory : TangentialVariant → ℕ
  | .LinearNoHistory => 3
  | .LinearHistory => 3
  | .Mindlin => 3
  | .MindlinForce => 3
  | .MindlinRescale => 4
  | .MindlinRescaleForce => 4

/-- The `num_coeffs` value set by each variant's constructor. -/
def numCoeffs : TangentialVariant → ℕ
  | .LinearNoHistory => 2
  | _ => 3

/-- Variant dispatch for `calculate_forces`.  The four Mindlin variants
share `TangentialMindlin::calculate_forces`, differing only in the
`mindlin_force` / `mindlin_rescale` flags set by their constructors.
Returns the final `(fs, history[0..2], history[3])`. -/
def calculateForces (v : TangentialVariant) (p : LocalParams) (EPSILON : ℝ)
    (c : ContactIn) (history0 : Vec3) (h3 : ℝ) : Vec3 × Vec3 × ℝ :=
  match v with
  | .LinearNoHistory => (tangentialLinearNoHistoryForces p c, history0, h3)
  | .LinearHistory =>
      let r := tangentialLinearHistoryForces p EPSILON c history0
      (r.1, r.2, h3)
  | .Mindlin => tangentialMindlinForces p false false EPSILON c history0 h3
  | .MindlinForce => tangentialMindlinForces p true false EPSILON c history0 h3
  | .MindlinRescale => tangentialMindlinForces p false true EPSILON c history0 h3
  | .MindlinRescaleForce => tangentialMindlinForces p true true EPSILON c history0 h3

/-- Variant dispatch for `coeffs_to_local`.  The four Mindlin variants
share `TangentialMindlin::coeffs_to_local`. -/
def coeffsToLocal (v : TangentialVariant) (coeffs : Coeffs3) (nm : NormalModel)
    (dampingDamp : ℝ) : Except GranErr LocalParams :=
  match v with
  | .LinearNoHistory => tangentialLinearNoHistoryCoeffsToLocal coeffs dampingDamp
  | .LinearHistory => tangentialLinearHistoryCoeffsToLocal coeffs dampingDamp
  | _ => tangentialMindlinCoeffsToLocal coeffs nm dampingDamp

/-- Allocation performed by the C expression `new double(v)`: a heap
block holding exactly one double, initialized to `v` (as opposed to the
array form `new double[n]`). -/
def newDoubleScalar (v : ℝ) : List ℝ := [v]

/-- The `transfer_history_factor` table built by the
`TangentialMindlinRescale` constructor (lines 315-318): the source
allocates `new double(size_history)` — a single double initialized to
`size_history` — then writes `-1.0` at every index `i < size_history`
and `+1` at index 3.  Writes past the end of the one-element block are
out of bounds in C; `List.set` models them as leaving the block
unchanged. -/
def mindlinRescaleTransferFactors : List ℝ :=
  ((List.range (sizeHistory TangentialVariant.MindlinRescale)).foldl
      (fun t i => t.set i (-1))
      (newDoubleScalar ((sizeHistory TangentialVariant.MindlinRescale : ℕ) : ℝ))).set 3 1

/-- The `transfer_history_factor` table built by the
`TangentialMindlinRescaleForce` constructor (lines 332-335), identical
code to the `TangentialMindlinRescale` constructor. -/
def mindlinRescaleForceTransferFactors : List ℝ :=
  ((List.range (sizeHistory TangentialVariant.MindlinRescaleForce)).foldl
      (fun t i => t.set i (-1))
      (newDoubleScalar ((sizeHistory TangentialVariant.MindlinRescaleForce : ℕ) : ℝ))).set 3 1

/-- The value held by `k` at the non-negativity check inside
`coeffs_to_local`, for each variant: 0 for `TangentialLinearNoHistory`,
`coeffs[0]` for `TangentialLinearHistory`, and for the Mindlin family
`coeffs[0]` with the `-1` sentinel replaced by the mixed shear modulus
whenever the normal model can supply it. -/
def workingK (v : TangentialVariant) (coeffs : Coeffs3) (nm : NormalModel) : ℝ :=
  match v with
  | .LinearNoHistory => 0
  | .LinearHistory => coeffs.c0
  | _ => if coeffs.c0 = -1 ∧ nm.material_properties = true then
           8 * mix_stiffnessG nm.Emod nm.Emod nm.poiss nm.poiss
         else coeffs.c0

/-- The damping ratio `xt` read by `coeffs_to_local`:
`coeffs[0]` for `TangentialLinearNoHistory`, `coeffs[1]` otherwise. -/
def workingXt (v : TangentialVariant) (coeffs : Coeffs3) : ℝ :=
  match v with
  | .LinearNoHistory => coeffs.c0
  | _ => coeffs.c1

/-- The friction coefficient `mu` read by `coeffs_to_local`:
`coeffs[1]` for `TangentialLinearNoHistory`, `coeffs[2]` otherwise. -/
def workingMu (v : TangentialVariant) (coeffs : Coeffs3) : ℝ :=
  match v with
  | .LinearNoHistory => coeffs.c1
  | _ => coeffs.c2

/-- A `coeffs_to_local` outcome is a fatal setup abort exactly when it
is an `error->all` call. -/
def setupFails : Except GranErr LocalParams → Prop
  | .error _ => True
  | .ok _ => False

/-- The Coulomb clipping tail shared by the history-based
`calculate_forces` implementations: whatever the raw force and history
are, the clipped force has length at most `Fscrit` when `Fscrit` is
non-negative. -/
lemma clip_len_le (fs1 h : Vec3) (Fscrit : ℝ) (hF : 0 ≤ Fscrit) :
    len3 (if len3 fs1 > Fscrit then
      (if len3 h ≠ 0 then scale3 (Fscrit / len3 fs1) fs1 else zero3)
    else fs1) ≤ Fscrit := by
  split_ifs with h1 h2
  · rw [len3_scale3]
    have hm : 0 < len3 fs1 := lt_of_le_of_lt hF h1
    rw [abs_of_nonneg (div_nonneg hF hm.le), div_mul_cancel₀ _ (ne_of_gt hm)]
  · rw [len3_zero3]
    exact hF
  · exact not_lt.mp h1

/-- Modelled from the spec: the per-contact kinematics provider
(`GranularModel` / `contact.cpp`, outside this excerpt) populates the
contact state with `vrel` equal to the magnitude of the tangential
relative velocity and with a non-negative critical normal force
(`Fncrit` is "the normal contact force magnitude used to bound Coulomb
friction"). -/
def ProvidedKinematics (c : ContactIn) : Prop :=
  c.vrel = len3 c.vtr ∧ 0 ≤ c.Fncrit

lemma linear_history_forces_len_le (p : LocalParams) (EPSILON : ℝ) (c : ContactIn)
    (history0 : Vec3) (hF : 0 ≤ c.Fncrit * p.mu) :
    len3 (tangentialLinearHistoryForces p EPSILON c history0).1 ≤ c.Fncrit * p.mu := by
  simp only [tangentialLinearHistoryForces]
  exact clip_len_le _ _ _ hF

lemma mindlin_forces_len_le (p : LocalParams) (mf mr : Bool) (EPSILON : ℝ)
    (c : ContactIn) (history0 : Vec3) (h3 : ℝ) (hF : 0 ≤ c.Fncrit * p.mu) :
    len3 (tangentialMindlinForces p mf mr EPSILON c history0 h3).1 ≤ c.Fncrit * p.mu := by
  simp only [tangentialMindlinForces]
  exact clip_len_le _ _ _ hF

/-- Claim C1: for every tangential model variant, when the friction
coefficient, the derived damping prefactor and the critical normal
force are non-negative and the contact state's `vrel` is the magnitude
of the tangential relative velocity (as the kinematics provider sets
it), the tangential force written by `calculate_forces` has magnitude
at most the Coulomb critical force `mu * Fncrit`. -/
theorem c1_tangential_force_coulomb_bound (v : TangentialVariant) (p : LocalParams)
    (EPSILON : ℝ) (c : ContactIn) (history0 : Vec3) (h3 : ℝ)
    (hmu : 0 ≤ p.mu) (hdamp : 0 ≤ p.damp) (hkin : ProvidedKinematics c) :
    len3 (calculateForces v p EPSILON c history0 h3).1 ≤ p.mu * c.Fncrit := by
  obtain ⟨hvrel, hFn⟩ := hkin
  have hF : 0 ≤ c.Fncrit * p.mu := mul_nonneg hFn hmu
  cases v
  case LinearNoHistory =>
    simp only [calculateForces, tangentialLinearNoHistoryForces]
    rw [len3_scale3, abs_neg]
    rcases eq_or_ne c.vrel 0 with hv | hv
    · rw [if_neg (by simp [hv])]
      simpa using mul_nonneg hmu hFn
    · have hvge : 0 ≤ c.vrel := by rw [hvrel]; exact len3_nonneg c.vtr
      have hvpos : 0 < c.vrel := lt_of_le_of_ne hvge (Ne.symm hv)
      rw [if_pos hv, ← hvrel,
        abs_of_nonneg (div_nonneg
          (le_min (mul_nonneg hmu hFn) (mul_nonneg hdamp hvge)) hvge),
        div_mul_cancel₀ _ (ne_of_gt hvpos)]
      exact min_le_left _ _
  case LinearHistory =>
    rw [mul_comm p.mu c.Fncrit]
    exact linear_history_forces_len_le p EPSILON c history0 hF
  case Mindlin =>
    rw [mul_comm p.mu c.Fncrit]
    exact mindlin_forces_len_le p false false EPSILON c history0 h3 hF
  case MindlinForce =>
    rw [mul_comm p.mu c.Fncrit]
    exact mindlin_forces_len_le p true false EPSILON c history0 h3 hF
  case MindlinRescale =>
    rw [mul_comm p.mu c.Fncrit]
    exact mindlin_forces_len_le p false true EPSILON c history0 h3 hF
  case MindlinRescaleForce =>
    rw [mul_comm p.mu c.Fncrit]
    exact mindlin_forces_len_le p true true EPSILON c history0 h3 hF

/-- Witness for C1 at a concrete input. -/
theorem c1_tangential_force_coulomb_bound_witness :
    len3 (calculateForces TangentialVariant.LinearNoHistory ⟨0, 1, 1, 1⟩ 1
      ⟨⟨1, 0, 0⟩, ⟨0, 0, 0⟩, 0, 1, 1, false, 1⟩ ⟨0, 0, 0⟩ 0).1 ≤ (1 : ℝ) * 1 :=
  c1_tangential_force_coulomb_bound TangentialVariant.LinearNoHistory ⟨0, 1, 1, 1⟩ 1
    ⟨⟨1, 0, 0⟩, ⟨0, 0, 0⟩, 0, 1, 1, false, 1⟩ ⟨0, 0, 0⟩ 0
    (by norm_num) (by norm_num) ⟨by simp [len3, dot3], by norm_num⟩

lemma foldl_set_length (l : List ℕ) (t : List ℝ) :
    (l.foldl (fun t i => t.set i (-1)) t).length = t.length := by
  induction l generalizing t with
  | nil => rfl
  | cons a l ih => rw [List.foldl_cons, ih, List.length_set]

/-- Claim C8: the transfer-factor table built by the MindlinRescale and
MindlinRescaleForce constructors holds a single double (the source
allocates `new double(size_history)`, a scalar allocation), so its
length is 1, not `size_history = 4` as the claim requires. -/
theorem c8_transfer_factor_table_not_sized :
    mindlinRescaleTransferFactors.length = 1
    ∧ mindlinRescaleForceTransferFactors.length = 1
    ∧ sizeHistory TangentialVariant.MindlinRescale = 4
    ∧ sizeHistory TangentialVariant.MindlinRescaleForce = 4
    ∧ mindlinRescaleTransferFactors.length ≠ sizeHistory TangentialVariant.MindlinRescale := by
  have h1 : mindlinRescaleTransferFactors.length = 1 := by
    unfold mindlinRescaleTransferFactors
    rw [List.length_set, foldl_set_length]
    rfl
  have h2 : mindlinRescaleForceTransferFactors.length = 1 := by
    unfold mindlinRescaleForceTransferFactors
    rw [List.length_set, foldl_set_length]
    rfl
  refine ⟨h1, h2, rfl, rfl, ?_⟩
  rw [h1]
  decide

/-- Claim C9: the `TangentialLinearNoHistory` constructor sets
`size_history` to 3 (source line 34), not 0 as the claim requires. -/
theorem c9_linear_no_history_size_history :
    sizeHistory TangentialVariant.LinearNoHistory = 3
    ∧ sizeHistory TangentialVariant.LinearNoHistory ≠ 0 :=
  ⟨rfl, by decide⟩

lemma setupFails_check_iff (P : Prop) [Decidable P] (e : GranErr) (p : LocalParams) :
    setupFails (if P then Except.error e else Except.ok p) ↔ P := by
  split_ifs with h <;> simp [setupFails, h]

lemma mindlin_setup_iff (coeffs : Coeffs3) (nm : NormalModel) (dampingDamp : ℝ) :
    setupFails (tangentialMindlinCoeffsToLocal coeffs nm dampingDamp) ↔
      (if coeffs.c0 = -1 ∧ nm.material_properties = true then
          8 * mix_stiffnessG nm.Emod nm.Emod nm.poiss nm.poiss
        else coeffs.c0) < 0
      ∨ coeffs.c1 < 0 ∨ coeffs.c2 < 0 := by
  simp only [tangentialMindlinCoeffsToLocal]
  by_cases hguard : coeffs.c0 = -1 ∧ nm.material_properties = false
  · rw [if_pos hguard]
    have hw : ¬ (coeffs.c0 = -1 ∧ nm.material_properties = true) := by
      rintro ⟨-, hmm⟩
      rw [hguard.2] at hmm
      exact Bool.false_ne_true hmm
    rw [if_neg hw]
    simp only [setupFails, true_iff]
    left
    rw [hguard.1]
    norm_num
  · rw [if_neg hguard]
    by_cases h0 : coeffs.c0 = -1
    · have hmat : nm.material_properties = true := by
        cases hm : nm.material_properties
        · exact absurd ⟨h0, hm⟩ hguard
        · rfl
      rw [if_pos h0, if_pos (⟨h0, hmat⟩ : _ ∧ _)]
      exact setupFails_check_iff _ _ _
    · have hA : ¬ (coeffs.c0 = -1 ∧ nm.material_properties = true) := fun hh => h0 hh.1
      rw [if_neg h0, if_neg hA]
      exact setupFails_check_iff _ _ _

/-- Claim C7: for every tangential variant, `coeffs_to_local` raises a
fatal setup error exactly when one of the working parameters `k`
(the Mindlin sentinel replaced whenever the normal model can supply
material properties), `xt` or `mu` is negative; in particular a
negative friction coefficient always aborts setup. -/
theorem c7_setup_error_iff_negative_params (v : TangentialVariant) (coeffs : Coeffs3)
    (nm : NormalModel) (dampingDamp : ℝ) :
    (setupFails (coeffsToLocal v coeffs nm dampingDamp) ↔
      workingK v coeffs nm < 0 ∨ workingXt v coeffs < 0 ∨ workingMu v coeffs < 0)
    ∧ (workingMu v coeffs < 0 → setupFails (coeffsToLocal v coeffs nm dampingDamp)) := by
  have main : setupFails (coeffsToLocal v coeffs nm dampingDamp) ↔
      workingK v coeffs nm < 0 ∨ workingXt v coeffs < 0 ∨ workingMu v coeffs < 0 := by
    cases v
    case LinearNoHistory =>
      simp only [coeffsToLocal, tangentialLinearNoHistoryCoeffsToLocal, workingK,
        workingXt, workingMu]
      exact setupFails_check_iff _ _ _
    case LinearHistory =>
      simp only [coeffsToLocal, tangentialLinearHistoryCoeffsToLocal, workingK,
        workingXt, workingMu]
      exact setupFails_check_iff _ _ _
    case Mindlin =>
      simpa only [coeffsToLocal, workingK, workingXt, workingMu] using
        mindlin_setup_iff coeffs nm dampingDamp
    case MindlinForce =>
      simpa only [coeffsToLocal, workingK, workingXt, workingMu] using
        mindlin_setup_iff coeffs nm dampingDamp
    case MindlinRescale =>
      simpa only [coeffsToLocal, workingK, workingXt, workingMu] using
        mindlin_setup_iff coeffs nm dampingDamp
    case MindlinRescaleForce =>
      simpa only [coeffsToLocal, workingK, workingXt, workingMu] using
        mindlin_setup_iff coeffs nm dampingDamp
  exact ⟨main, fun hmu => main.mpr (Or.inr (Or.inr hmu))⟩

/-- Witness for C7: a negative friction coefficient aborts Mindlin
setup. -/
theorem c7_setup_error_iff_negative_params_witness :
    setupFails (coeffsToLocal TangentialVariant.Mindlin ⟨1, 1, -1⟩ ⟨true, 1, 1⟩ 1) :=
  (c7_setup_error_iff_negative_params TangentialVariant.Mindlin ⟨1, 1, -1⟩
    ⟨true, 1, 1⟩ 1).2 (by norm_num [workingMu])

/-- Claim C6: `TangentialMindlin::coeffs_to_local` with the stiffness
sentinel `-1` derives `k = 8 * mix_stiffnessG(Emod, Emod, poiss,
poiss)` from the normal model when material properties are available
(returning it in the working parameters, given the remaining
coefficients pass the validity check), and raises a fatal error when
the normal model has no material properties. -/
theorem c6_mindlin_auto_stiffness (coeffs : Coeffs3) (nm : NormalModel)
    (dampingDamp : ℝ) (hc0 : coeffs.c0 = -1) :
    (nm.material_properties = true →
      0 ≤ 8 * mix_stiffnessG nm.Emod nm.Emod nm.poiss nm.poiss →
      0 ≤ coeffs.c1 → 0 ≤ coeffs.c2 →
      tangentialMindlinCoeffsToLocal coeffs nm dampingDamp =
        Except.ok ⟨8 * mix_stiffnessG nm.Emod nm.Emod nm.poiss nm.poiss,
          coeffs.c1, coeffs.c2, coeffs.c1 * dampingDamp⟩)
    ∧ (nm.material_properties = false →
      tangentialMindlinCoeffsToLocal coeffs nm dampingDamp =
        Except.error GranErr.mindlinNeedsMaterial) := by
  constructor
  · intro hmat hk hxt hmu
    simp only [tangentialMindlinCoeffsToLocal]
    rw [hc0, hmat, if_neg (by simp), if_pos rfl,
      if_neg (by push_neg; exact ⟨hk, hxt, hmu⟩)]
  · intro hmat
    simp only [tangentialMindlinCoeffsToLocal]
    rw [hc0, hmat, if_pos ⟨rfl, rfl⟩]

/-- Witness for C6 at the spec's scenario values. -/
theorem c6_mindlin_auto_stiffness_witness :
    tangentialMindlinCoeffsToLocal ⟨-1, 1/2, 1/2⟩ ⟨true, 1000000, 3/10⟩ 1 =
      Except.ok ⟨8 * mix_stiffnessG 1000000 1000000 (3/10) (3/10), 1/2, 1/2, 1/2 * 1⟩ :=
  (c6_mindlin_auto_stiffness ⟨-1, 1/2, 1/2⟩ ⟨true, 1000000, 3/10⟩ 1 rfl).1 rfl
    (by norm_num [mix_stiffnessG]) (by norm_num) (by norm_num)

/-- Claim C10: in `TangentialLinearHistory::calculate_forces` the force
before Coulomb clipping is exactly `-damp * vtr`: the returned force is
always `-damp * vtr`, its Coulomb rescaling, or zero, and whenever the
raw magnitude is within the Coulomb limit the force equals
`-damp * vtr` for every history content. -/
theorem c10_linear_history_force_ignores_history (p : LocalParams) (EPSILON : ℝ)
    (c : ContactIn) (h1 h2 : Vec3) :
    ((tangentialLinearHistoryForces p EPSILON c h1).1 = scale3 (-p.damp) c.vtr
      ∨ (tangentialLinearHistoryForces p EPSILON c h1).1 =
          scale3 ((c.Fncrit * p.mu) / len3 (scale3 (-p.damp) c.vtr))
            (scale3 (-p.damp) c.vtr)
      ∨ (tangentialLinearHistoryForces p EPSILON c h1).1 = zero3)
    ∧ (len3 (scale3 (-p.damp) c.vtr) ≤ c.Fncrit * p.mu →
        (tangentialLinearHistoryForces p EPSILON c h1).1 = scale3 (-p.damp) c.vtr
        ∧ (tangentialLinearHistoryForces p EPSILON c h1).1 =
            (tangentialLinearHistoryForces p EPSILON c h2).1) := by
  constructor
  · by_cases hclip : len3 (scale3 (-p.damp) c.vtr) > c.Fncrit * p.mu
    · by_cases hsh :
        len3 (if c.history_update = true then linearHistoryUpdate p EPSILON c h1
          else h1) ≠ 0
      · right; left
        simp only [tangentialLinearHistoryForces]
        rw [if_pos hclip, if_pos hsh]
      · right; right
        simp only [tangentialLinearHistoryForces]
        rw [if_pos hclip, if_neg hsh]
    · left
      simp only [tangentialLinearHistoryForces]
      rw [if_neg hclip]
  · intro hle
    have hnc : ¬ len3 (scale3 (-p.damp) c.vtr) > c.Fncrit * p.mu := not_lt.mpr hle
    constructor
    · simp only [tangentialLinearHistoryForces]
      rw [if_neg hnc]
    · simp only [tangentialLinearHistoryForces]
      rw [if_neg hnc, if_neg hnc]

/-- Witness for C10 at a concrete input. -/
theorem c10_linear_history_force_ignores_history_witness :
    (tangentialLinearHistoryForces ⟨1, 1, 1, 1⟩ 1
      ⟨⟨1, 0, 0⟩, ⟨0, 0, 0⟩, 0, 1, 1, false, 1⟩ ⟨1, 2, 3⟩).1 =
      scale3 (-(1 : ℝ)) ⟨0, 0, 0⟩ :=
  ((c10_linear_history_force_ignores_history ⟨1, 1, 1, 1⟩ 1
    ⟨⟨1, 0, 0⟩, ⟨0, 0, 0⟩, 0, 1, 1, false, 1⟩ ⟨1, 2, 3⟩ ⟨1, 2, 3⟩).2
    (by norm_num [len3, dot3, scale3])).1

/-- Claim C2: evaluating `TangentialLinearHistory::calculate_forces`
with `history = (3,0,4)`, `nx = (0,0,1)`, `vtr = 0`, `mu = 0` (so the
frame-update tolerance is exceeded): the resulting history is
`(0,0,5)`, which has the non-zero component `5` along the current
normal (the source assigns the component along the normal instead of
removing it), although the pre-projection magnitude is preserved. -/
theorem c2_frame_update_history_parallel_to_normal :
    (tangentialLinearHistoryForces ⟨1, 0, 0, 0⟩ 1
        ⟨⟨0, 0, 1⟩, ⟨0, 0, 0⟩, 0, 1, 1, true, 1⟩ ⟨3, 0, 4⟩).2 = ⟨0, 0, 5⟩
    ∧ dot3 (⟨0, 0, 5⟩ : Vec3) (⟨0, 0, 1⟩ : Vec3) ≠ 0
    ∧ len3 (⟨0, 0, 5⟩ : Vec3) = len3 (⟨3, 0, 4⟩ : Vec3) := by
  have s25 : Real.sqrt 25 = 5 := by
    rw [show (25 : ℝ) = 5 ^ 2 by norm_num]
    exact Real.sqrt_sq (by norm_num)
  have s16 : Real.sqrt 16 = 4 := by
    rw [show (16 : ℝ) = 4 ^ 2 by norm_num]
    exact Real.sqrt_sq (by norm_num)
  refine ⟨?_, ?_, ?_⟩
  · norm_num [tangentialLinearHistoryForces, linearHistoryUpdate, dot3, scale3,
      sub3, add3, zero3, len3, s25, s16, Vec3.mk.injEq]
  · norm_num [dot3]
  · norm_num [len3, dot3]

/-- Claim C3: evaluating `TangentialMindlin::calculate_forces`
(displacement formulation) at `k = 1`, `mu = 1`, `damp = 0`,
`area = 1`, `vtr = 0`, `Fncrit = 1`, `history = (3,0,4)`: the force is
clipped to `(3/5, 0, 4/5)` and the history back-derived to
`(-3/5, 0, -4/5)`; re-running with the same kinematics and the updated
history returns `(-3/5, 0, -4/5)`, not the previous clipped force. -/
theorem c3_mindlin_clip_not_fixed_point :
    (calculateForces TangentialVariant.Mindlin ⟨1, 0, 1, 0⟩ 1
        ⟨⟨0, 0, 1⟩, ⟨0, 0, 0⟩, 0, 1, 1, false, 1⟩ ⟨3, 0, 4⟩ 0).1 = ⟨3/5, 0, 4/5⟩
    ∧ (calculateForces TangentialVariant.Mindlin ⟨1, 0, 1, 0⟩ 1
        ⟨⟨0, 0, 1⟩, ⟨0, 0, 0⟩, 0, 1, 1, false, 1⟩ ⟨3, 0, 4⟩ 0).2.1 =
        ⟨-(3/5), 0, -(4/5)⟩
    ∧ (calculateForces TangentialVariant.Mindlin ⟨1, 0, 1, 0⟩ 1
        ⟨⟨0, 0, 1⟩, ⟨0, 0, 0⟩, 0, 1, 1, false, 1⟩ ⟨-(3/5), 0, -(4/5)⟩ 0).1 =
        ⟨-(3/5), 0, -(4/5)⟩
    ∧ (⟨-(3/5), 0, -(4/5)⟩ : Vec3) ≠ (⟨3/5, 0, 4/5⟩ : Vec3) := by
  have s25 : Real.sqrt 25 = 5 := by
    rw [show (25 : ℝ) = 5 ^ 2 by norm_num]
    exact Real.sqrt_sq (by norm_num)
  refine ⟨?_, ?_, ?_, ?_⟩
  · norm_num [calculateForces, tangentialMindlinForces, dot3, scale3, add3,
      zero3, len3, s25, Vec3.mk.injEq]
  · norm_num [calculateForces, tangentialMindlinForces, dot3, scale3, add3,
      zero3, len3, s25, Vec3.mk.injEq]
  · norm_num [calculateForces, tangentialMindlinForces, dot3, scale3, add3,
      zero3, len3, Real.sqrt_one, Vec3.mk.injEq]
  · norm_num [Vec3.mk.injEq]

/-- Claim C4: `TangentialMindlin::mix_coeffs` is not symmetric: with
`icoeffs[0] = -1` and `jcoeffs[0] = 4` the mixed stiffness is the
sentinel `-1`, but with the arguments swapped the sentinel test (which
reads the `i` side twice) fails and the mixed stiffness is
`sqrt(4 * -1)` (0 in this real-valued model, NaN in IEEE), so the two
mixed coefficient sequences differ. -/
theorem c4_mindlin_mixing_not_symmetric :
    (tangentialMindlinMixedCoeffs ⟨-1, 1, 1⟩ ⟨4, 1, 1⟩).c0 = -1
    ∧ (tangentialMindlinMixedCoeffs ⟨4, 1, 1⟩ ⟨-1, 1, 1⟩).c0 = 0
    ∧ tangentialMindlinMixedCoeffs ⟨-1, 1, 1⟩ ⟨4, 1, 1⟩ ≠
        tangentialMindlinMixedCoeffs ⟨4, 1, 1⟩ ⟨-1, 1, 1⟩ := by
  have hAB : (tangentialMindlinMixedCoeffs ⟨-1, 1, 1⟩ ⟨4, 1, 1⟩).c0 = -1 := by
    norm_num [tangentialMindlinMixedCoeffs]
  have hBA : (tangentialMindlinMixedCoeffs ⟨4, 1, 1⟩ ⟨-1, 1, 1⟩).c0 = 0 := by
    simp only [tangentialMindlinMixedCoeffs, mix_geom]
    rw [if_neg (by norm_num)]
    exact Real.sqrt_eq_zero'.mpr (by norm_num)
  refine ⟨hAB, hBA, fun hEq => ?_⟩
  have h0 := congrArg Coeffs3.c0 hEq
  rw [hAB, hBA] at h0
  norm_num at h0

/-- Claim C5: in `TangentialMindlin::mix_coeffs`, with
`icoeffs[0] = 4` and `jcoeffs[0] = -1` the mixed stiffness is
`mix_geom(4, -1) = sqrt(-4)` (0 in this real-valued model, NaN in
IEEE) rather than the sentinel `-1` required when either input is the
sentinel: the source tests `imodel->coeffs[0]` twice and never reads
`jmodel`. -/
theorem c5_mindlin_mix_sentinel_not_propagated :
    (tangentialMindlinMixedCoeffs ⟨4, 2, 2⟩ ⟨-1, 2, 2⟩).c0 = 0
    ∧ (tangentialMindlinMixedCoeffs ⟨4, 2, 2⟩ ⟨-1, 2, 2⟩).c0 ≠ -1 := by
  have h0 : (tangentialMindlinMixedCoeffs ⟨4, 2, 2⟩ ⟨-1, 2, 2⟩).c0 = 0 := by
    simp only [tangentialMindlinMixedCoeffs, mix_geom]
    rw [if_neg (by norm_num)]
    exact Real.sqrt_eq_zero'.mpr (by norm_num)
  refine ⟨h0, ?_⟩
  rw [h0]
  norm_num

end

end GranularContact
